import Mathlib

/-!
Verification of the concurrency-strategy comparator in `src/api/main.py`.

The embedding models the shared mutable state of the service (the lock-guarded
global `shared_counter` and the `SharedDataStore` singleton), the three entry
points `process_single`, `process_parallel` and `process_async`, and the worker
function `process_task_threaded`.

Modelling conventions:
- `cpu_intensive_task` is a pure floating-point computation (`sum of
  sqrt(i)*sin(i)`), side-effect free per the code; none of the verified
  properties depend on its numeric value, so it is abstracted as a parameter
  `compute : Nat → Int` (per-task result value).  `io_simulation` only sleeps
  and has no state effect, so it is omitted.
- The locks (`data_lock`, `SharedDataStore.lock`) make each counter increment
  and each store append atomic.  A concurrent run of the parallel endpoint is
  therefore a sequence (interleaving) of these atomic events; the event model
  (`Ev`, `runEvents`, `ValidSchedule`) quantifies over all interleavings, and
  the functional model (`runTasks`, `process_parallel`) executes one
  interleaving, collecting results as the code's `results.append` does.
- The semaphore (`operation_semaphore`, 5 tokens) is modelled both
  functionally (a token count threaded through `process_task_threaded`; the
  `with` statement releases on every exit path, including exceptions) and as a
  transition system (`PoolStep`) for the bound on simultaneously admitted
  workers.
- FastAPI's `Query(ge=1, le=20)` validation on `items` is modelled as the
  range check at the head of each entry point; an out-of-range value is
  rejected before any work starts (`ApiError.validation`).
- Wall-clock fields (`duration_seconds`, `timestamp`) carry no verified
  content; timestamps are abstracted as a parameter `ts : Nat → Nat` and
  durations are omitted from `RunReport`.
- Exceptions raised inside a task are modelled by `Outcome`: the workload,
  the counter increment or the store append may raise; the `with
  operation_semaphore` block releases the token in every case.
-/

/-- One record stored in `SharedDataStore.data` by `shared_store.add_data`:
the dict `\x7btask_id, thread, timestamp\x7d` built in `process_task_threaded`. -/
structure StoreItem where
  task_id : Nat
  thread : String
  timestamp : Nat
deriving DecidableEq, Repr

/-- The stats dict returned by `SharedDataStore.get_stats`. -/
structure Stats where
  total_items : Nat
  operations : Nat
deriving DecidableEq, Repr

/-- `SharedDataStore`: the mutex-guarded list `data` plus `operation_count`.
The mutex makes `add_data` and `get_stats` atomic; the embedding therefore
gives them as pure state transformers / observers. -/
structure SharedDataStore where
  data : List StoreItem
  operation_count : Nat
deriving DecidableEq, Repr

/-- `SharedDataStore.add_data`: under `self.lock`, append `item` to `self.data`
and increment `self.operation_count`. -/
def SharedDataStore.add_data (s : SharedDataStore) (item : StoreItem) : SharedDataStore :=
  { data := s.data ++ [item], operation_count := s.operation_count + 1 }

/-- `SharedDataStore.get_stats`: under `self.lock`, return
`total_items = len(self.data)` and `operations = self.operation_count`. -/
def SharedDataStore.get_stats (s : SharedDataStore) : Stats :=
  { total_items := s.data.length, operations := s.operation_count }

/-- The process-wide shared mutable state: the global `shared_counter`
(guarded by `data_lock`) and the global `shared_store` singleton. -/
structure SysState where
  shared_counter : Nat
  store : SharedDataStore
deriving DecidableEq, Repr

/-- The state at process start: `shared_counter = 0`, `shared_store`
freshly constructed with empty data and zero operation count. -/
def initState : SysState :=
  { shared_counter := 0, store := { data := [], operation_count := 0 } }

/-- `max_concurrent_operations = 5`, the size of `operation_semaphore`. -/
def max_concurrent_operations : Nat := 5

/-- One per-task entry of a report's `results` list.  `counter_value` is
`some _` only for the parallel endpoint (the others' dicts lack the key). -/
structure TaskResult where
  task_id : Nat
  result : Int
  processed_by : String
  counter_value : Option Nat
deriving DecidableEq, Repr

/-- The JSON body returned by an entry point.  `shared_counter` and
`store_stats` are `some _` only for the parallel endpoint; `duration_seconds`
(wall-clock time) is omitted from the model. -/
structure RunReport where
  version : String
  items_processed : Nat
  results : List TaskResult
  concurrency : String
  shared_counter : Option Nat
  store_stats : Option Stats
deriving DecidableEq, Repr

/-- Validation failure: FastAPI rejects `items` outside `ge=1, le=20`
before the handler body runs. -/
inductive ApiError
  | validation (msg : String)
deriving DecidableEq, Repr

/-- Outcome of one task's fallible steps inside `process_task_threaded`:
either every step succeeds and the workload computes `v`, or an exception is
raised by the workload (`raiseCompute`), by the `shared_counter += 1` block
(`raiseIncrement`), or by `shared_store.add_data` (`raiseAppend`). -/
inductive Outcome
  | ok (v : Int)
  | raiseCompute (msg : String)
  | raiseIncrement (msg : String)
  | raiseAppend (msg : String)
deriving DecidableEq, Repr

/-- Whether the task completes all steps and returns a result dict. -/
def Outcome.isOk : Outcome → Bool
  | .ok _ => true
  | _ => false

/-- Whether the task's counter increment takes effect (it does on full
success and also when the later `add_data` call raises). -/
def Outcome.bumpsCounter : Outcome → Bool
  | .ok _ => true
  | .raiseAppend _ => true
  | _ => false

/-- `process_task_threaded(task_id)`: the worker body.  `with
operation_semaphore` acquires one token (the call only proceeds when a token
is available, i.e. `0 < tokens`) and releases it on every exit path.  On
success it increments `shared_counter` under `data_lock` capturing the
post-increment value, appends a record to `shared_store`, and returns the
result dict; on an exception the `with` statement still releases the token
and the exception propagates. -/
def process_task_threaded (tid : Nat) (outcome : Outcome) (tname : String) (ts : Nat)
    (tokens : Nat) (s : SysState) : Nat × SysState × Except String TaskResult :=
  let tokensHeld := tokens - 1
  match outcome with
  | .raiseCompute msg => (tokensHeld + 1, s, .error msg)
  | .raiseIncrement msg => (tokensHeld + 1, s, .error msg)
  | .raiseAppend msg =>
      let s1 : SysState := { s with shared_counter := s.shared_counter + 1 }
      (tokensHeld + 1, s1, .error msg)
  | .ok v =>
      let s1 : SysState := { s with shared_counter := s.shared_counter + 1 }
      let current_count := s1.shared_counter
      let s2 : SysState := { s1 with store := s1.store.add_data ⟨tid, tname, ts⟩ }
      (tokensHeld + 1, s2,
        .ok { task_id := tid, result := v, processed_by := tname,
              counter_value := some current_count })

/-- The loop of `process_parallel`: each spawned thread runs
`results.append(process_task_threaded(tid))`; when the worker raises, the
append never happens and the thread dies, so no result slot is produced.
This executes the submission-order interleaving; the event model below covers
arbitrary interleavings. -/
def runTasks (o : Nat → Outcome) (tn : Nat → String) (ts : Nat → Nat) :
    List Nat → Nat × SysState × List TaskResult → Nat × SysState × List TaskResult
  | [], acc => acc
  | tid :: rest, (tokens, s, res) =>
      let step := process_task_threaded tid (o tid) (tn tid) (ts tid) tokens s
      let res' := match step.2.2 with
        | .ok r => res ++ [r]
        | .error _ => res
      runTasks o tn ts rest (step.1, step.2.1, res')

/-- `process_single(items)`: validated `1 ≤ items ≤ 20`, then a sequential
loop building `\x7btask_id: i, result, processed_by: "single_thread"\x7d` per
iteration; it never touches `shared_counter` or `shared_store` and its report
has no counter or store fields. -/
def process_single (compute : Nat → Int) (items : Int) (s : SysState) :
    SysState × Except ApiError RunReport :=
  if items < 1 ∨ 20 < items then
    (s, .error (.validation "items must be between 1 and 20"))
  else
    let n := items.toNat
    let results := (List.range n).map fun i =>
      ({ task_id := i, result := compute i, processed_by := "single_thread",
         counter_value := none } : TaskResult)
    (s, .ok { version := "A - Single Threaded", items_processed := n,
              results := results, concurrency := "none",
              shared_counter := none, store_stats := none })

/-- `process_parallel(items)`: validated `1 ≤ items ≤ 20`, then launches one
thread per `i in range(items)` running `process_task_threaded`, joins them
all, and returns the report including a `shared_counter` snapshot and
`shared_store.get_stats()`. -/
def process_parallel (o : Nat → Outcome) (tn : Nat → String) (ts : Nat → Nat)
    (items : Int) (s : SysState) : SysState × Except ApiError RunReport :=
  if items < 1 ∨ 20 < items then
    (s, .error (.validation "items must be between 1 and 20"))
  else
    let n := items.toNat
    let out := runTasks o tn ts (List.range n) (max_concurrent_operations, s, [])
    (out.2.1, .ok { version := "B - Multi-threaded", items_processed := n,
                    results := out.2.2, concurrency := "parallel",
                    shared_counter := some out.2.1.shared_counter,
                    store_stats := some out.2.1.store.get_stats })

/-- `process_async(items)`: validated `1 ≤ items ≤ 20`; each `async_task`
sleeps, computes and returns `\x7btask_id, result, processed_by:
"async_coroutine"\x7d`.  `asyncio.gather` preserves submission order.  No access
to `shared_counter` or `shared_store`, and the report has no counter or store
fields. -/
def process_async (compute : Nat → Int) (items : Int) (s : SysState) :
    SysState × Except ApiError RunReport :=
  if items < 1 ∨ 20 < items then
    (s, .error (.validation "items must be between 1 and 20"))
  else
    let n := items.toNat
    let results := (List.range n).map fun i =>
      ({ task_id := i, result := compute i, processed_by := "async_coroutine",
         counter_value := none } : TaskResult)
    (s, .ok { version := "Async/Await", items_processed := n,
              results := results, concurrency := "async",
              shared_counter := none, store_stats := none })

/-- The `results` list of a run's report (empty when the run was rejected). -/
def resultsOf (r : SysState × Except ApiError RunReport) : List TaskResult :=
  match r.2 with
  | .ok rep => rep.results
  | .error _ => []

/-!
Event model of a parallel run: `data_lock` and the store's lock make each
counter increment and each store append a single atomic event, so any
concurrent execution of the parallel endpoint in which every workload
succeeds is some interleaving — a permutation — of one `inc` and one `app`
event per task.
-/

/-- An atomic shared-state event of a parallel run: a `shared_counter`
increment under `data_lock`, or a `shared_store.add_data` call. -/
inductive Ev
  | inc (tid : Nat)
  | app (tid : Nat) (item : StoreItem)
deriving DecidableEq, Repr

/-- Whether the event is a counter increment. -/
def Ev.isInc : Ev → Bool
  | .inc _ => true
  | _ => false

/-- Whether the event is a store append. -/
def Ev.isApp : Ev → Bool
  | .app _ _ => true
  | _ => false

/-- Effect of one atomic event on the shared state. -/
def applyEv (s : SysState) : Ev → SysState
  | .inc _ => { s with shared_counter := s.shared_counter + 1 }
  | .app _ item => { s with store := s.store.add_data item }

/-- Execute a sequence of atomic events. -/
def runEvents (s : SysState) (es : List Ev) : SysState :=
  es.foldl applyEv s

/-- The submission-order schedule of an `n`-task parallel run: every task's
increment, then every task's append (`recs i` is the record task `i` appends). -/
def canonicalSchedule (n : Nat) (recs : Nat → StoreItem) : List Ev :=
  (List.range n).map Ev.inc ++ (List.range n).map fun i => Ev.app i (recs i)

/-- A schedule of an `n`-task fully successful parallel run: any
interleaving of the 2n atomic events — one increment and one append per
task. -/
def ValidSchedule (n : Nat) (recs : Nat → StoreItem) (es : List Ev) : Prop :=
  es.Perm (canonicalSchedule n recs)

theorem runEvents_shared_counter (es : List Ev) (s : SysState) :
    (runEvents s es).shared_counter = s.shared_counter + es.countP Ev.isInc := by
  induction es generalizing s with
  | nil => simp [runEvents]
  | cons e rest ih =>
    cases e with
    | inc tid =>
      simp [runEvents, List.foldl_cons, applyEv, List.countP_cons, Ev.isInc] at *
      rw [ih]
      simp [Nat.add_comm, Nat.add_assoc, Nat.add_left_comm]
    | app tid item =>
      simp [runEvents, List.foldl_cons, applyEv, List.countP_cons, Ev.isInc] at *
      rw [ih]

theorem runEvents_data_length (es : List Ev) (s : SysState) :
    (runEvents s es).store.data.length
      = s.store.data.length + es.countP Ev.isApp := by
  induction es generalizing s with
  | nil => simp [runEvents]
  | cons e rest ih =>
    cases e with
    | inc tid =>
      simp [runEvents, List.foldl_cons, applyEv, List.countP_cons, Ev.isApp] at *
      rw [ih]
    | app tid item =>
      simp [runEvents, List.foldl_cons, applyEv, List.countP_cons, Ev.isApp,
        SharedDataStore.add_data] at *
      rw [ih]
      simp [Nat.add_comm, Nat.add_assoc, Nat.add_left_comm]

theorem runEvents_operation_count (es : List Ev) (s : SysState) :
    (runEvents s es).store.operation_count
      = s.store.operation_count + es.countP Ev.isApp := by
  induction es generalizing s with
  | nil => simp [runEvents]
  | cons e rest ih =>
    cases e with
    | inc tid =>
      simp [runEvents, List.foldl_cons, applyEv, List.countP_cons, Ev.isApp] at *
      rw [ih]
    | app tid item =>
      simp [runEvents, List.foldl_cons, applyEv, List.countP_cons, Ev.isApp,
        SharedDataStore.add_data] at *
      rw [ih]
      simp [Nat.add_comm, Nat.add_assoc, Nat.add_left_comm]

theorem canonicalSchedule_countP_inc (n : Nat) (recs : Nat → StoreItem) :
    (canonicalSchedule n recs).countP Ev.isInc = n := by
  have h1 : (List.range n).countP (Ev.isInc ∘ Ev.inc) = (List.range n).length :=
    List.countP_eq_length.mpr fun a _ => rfl
  have h2 : (List.range n).countP (Ev.isInc ∘ fun i => Ev.app i (recs i)) = 0 :=
    List.countP_eq_zero.mpr fun a _ h => nomatch h
  rw [canonicalSchedule, List.countP_append, List.countP_map, List.countP_map, h1, h2,
    List.length_range]
  omega

theorem canonicalSchedule_countP_app (n : Nat) (recs : Nat → StoreItem) :
    (canonicalSchedule n recs).countP Ev.isApp = n := by
  have h1 : (List.range n).countP (Ev.isApp ∘ Ev.inc) = 0 :=
    List.countP_eq_zero.mpr fun a _ h => nomatch h
  have h2 : (List.range n).countP (Ev.isApp ∘ fun i => Ev.app i (recs i))
      = (List.range n).length :=
    List.countP_eq_length.mpr fun a _ => rfl
  rw [canonicalSchedule, List.countP_append, List.countP_map, List.countP_map, h1, h2,
    List.length_range]
  omega

theorem validSchedule_countP_inc {n : Nat} {recs : Nat → StoreItem} {es : List Ev}
    (h : ValidSchedule n recs es) : es.countP Ev.isInc = n := by
  rw [h.countP_eq, canonicalSchedule_countP_inc]

theorem validSchedule_countP_app {n : Nat} {recs : Nat → StoreItem} {es : List Ev}
    (h : ValidSchedule n recs es) : es.countP Ev.isApp = n := by
  rw [h.countP_eq, canonicalSchedule_countP_app]

/-!
Transition-system model of the semaphore-gated pool: each spawned thread is
`waiting` until it acquires a token from `operation_semaphore`, `active`
while inside the `with operation_semaphore` block (running the workload and
touching shared state), and done — successfully or by raising — once the
block exits and the token is released.
-/

/-- Phase of one spawned thread of a parallel run. -/
inductive Phase
  | waiting
  | active
  | doneOk
  | doneFail
deriving DecidableEq, Repr

/-- Number of threads currently inside the `with operation_semaphore` block. -/
def countActive (ps : List Phase) : Nat :=
  ps.countP fun p => p == Phase.active

/-- Instantaneous state of a parallel run: remaining semaphore tokens and the
phase of each spawned thread. -/
structure PoolState where
  tokens : Nat
  phases : List Phase
deriving DecidableEq, Repr

/-- Start of a parallel run: the semaphore holds all `k` tokens and the `n`
spawned threads are all waiting to acquire. -/
def initPool (k n : Nat) : PoolState :=
  { tokens := k, phases := List.replicate n Phase.waiting }

/-- Atomic scheduler steps of a parallel run.  A waiting thread may enter the
`with operation_semaphore` block only when a token is available, consuming
it; a thread leaving the block — normally or via an exception — returns its
token. -/
inductive PoolStep : PoolState → PoolState → Prop
  | acquire (st : PoolState) (i : Nat) (hi : i < st.phases.length)
      (hw : st.phases[i] = Phase.waiting) (ht : 0 < st.tokens) :
      PoolStep st { tokens := st.tokens - 1, phases := st.phases.set i Phase.active }
  | finish (st : PoolState) (i : Nat) (hi : i < st.phases.length)
      (ha : st.phases[i] = Phase.active) :
      PoolStep st { tokens := st.tokens + 1, phases := st.phases.set i Phase.doneOk }
  | failTask (st : PoolState) (i : Nat) (hi : i < st.phases.length)
      (ha : st.phases[i] = Phase.active) :
      PoolStep st { tokens := st.tokens + 1, phases := st.phases.set i Phase.doneFail }

/-- States a parallel run with `k` tokens and `n` threads can reach. -/
def PoolReachable (k n : Nat) (st : PoolState) : Prop :=
  Relation.ReflTransGen PoolStep (initPool k n) st

theorem countP_set_add {α : Type} (p : α → Bool) (l : List α) (i : Nat) (a : α)
    (hi : i < l.length) :
    (l.set i a).countP p + (if p l[i] then 1 else 0)
      = l.countP p + (if p a then 1 else 0) := by
  induction l generalizing i with
  | nil => simp at hi
  | cons x xs ih =>
    cases i with
    | zero =>
      simp [List.countP_cons]
      omega
    | succ j =>
      have hj : j < xs.length := Nat.lt_of_succ_lt_succ hi
      have hstep := ih j hj
      simp [List.countP_cons]
      omega

theorem countActive_replicate_waiting (n : Nat) :
    countActive (List.replicate n Phase.waiting) = 0 := by
  induction n with
  | zero => rfl
  | succ m ih => simp [countActive, List.replicate, List.countP_cons]

/-- Inductive invariant of the pool: available tokens plus threads inside the
admission-gated block always total the semaphore's size. -/
theorem pool_invariant (k n : Nat) (st : PoolState) (h : PoolReachable k n st) :
    st.tokens + countActive st.phases = k := by
  induction h with
  | refl => simp [initPool, countActive_replicate_waiting]
  | tail hsteps hstep ih =>
    cases hstep with
    | acquire i hi hw ht =>
      have hcnt := countP_set_add (fun p => p == Phase.active) _ i Phase.active hi
      rw [hw] at hcnt
      simp only [countActive] at *
      simp at hcnt
      omega
    | finish i hi ha =>
      have hcnt := countP_set_add (fun p => p == Phase.active) _ i Phase.doneOk hi
      rw [ha] at hcnt
      simp only [countActive] at *
      simp at hcnt
      omega
    | failTask i hi ha =>
      have hcnt := countP_set_add (fun p => p == Phase.active) _ i Phase.doneFail hi
      rw [ha] at hcnt
      simp only [countActive] at *
      simp at hcnt
      omega

theorem runTasks_tokens (o : Nat → Outcome) (tn : Nat → String) (ts : Nat → Nat)
    (tids : List Nat) (tokens : Nat) (s : SysState) (res : List TaskResult)
    (ht : 0 < tokens) :
    (runTasks o tn ts tids (tokens, s, res)).1 = tokens := by
  induction tids generalizing tokens s res with
  | nil => rfl
  | cons tid rest ih =>
    have hpred : tokens - 1 + 1 = tokens := Nat.succ_pred_eq_of_pos ht
    cases h : o tid <;>
      simp only [runTasks, process_task_threaded, h] <;>
      rw [hpred] <;>
      exact ih _ _ _ ht

theorem runTasks_shared_counter (o : Nat → Outcome) (tn : Nat → String) (ts : Nat → Nat)
    (tids : List Nat) (tokens : Nat) (s : SysState) (res : List TaskResult) :
    (runTasks o tn ts tids (tokens, s, res)).2.1.shared_counter
      = s.shared_counter + tids.countP (fun t => (o t).bumpsCounter) := by
  induction tids generalizing tokens s res with
  | nil => simp [runTasks]
  | cons tid rest ih =>
    cases h : o tid <;>
      simp only [runTasks, process_task_threaded, h] <;>
      rw [ih] <;>
      simp [List.countP_cons, h, Outcome.bumpsCounter] <;>
      omega

theorem runTasks_store_data (o : Nat → Outcome) (tn : Nat → String) (ts : Nat → Nat)
    (tids : List Nat) (tokens : Nat) (s : SysState) (res : List TaskResult) :
    (runTasks o tn ts tids (tokens, s, res)).2.1.store.data
      = s.store.data ++ (tids.filter fun t => (o t).isOk).map
          (fun t => ({ task_id := t, thread := tn t, timestamp := ts t } : StoreItem)) := by
  induction tids generalizing tokens s res with
  | nil => simp [runTasks]
  | cons tid rest ih =>
    cases h : o tid <;>
      simp only [runTasks, process_task_threaded, h] <;>
      rw [ih] <;>
      simp [List.filter_cons, h, Outcome.isOk, SharedDataStore.add_data, List.append_assoc]

theorem runTasks_operation_count (o : Nat → Outcome) (tn : Nat → String) (ts : Nat → Nat)
    (tids : List Nat) (tokens : Nat) (s : SysState) (res : List TaskResult) :
    (runTasks o tn ts tids (tokens, s, res)).2.1.store.operation_count
      = s.store.operation_count + tids.countP (fun t => (o t).isOk) := by
  induction tids generalizing tokens s res with
  | nil => simp [runTasks]
  | cons tid rest ih =>
    cases h : o tid <;>
      simp only [runTasks, process_task_threaded, h] <;>
      rw [ih] <;>
      simp [List.countP_cons, h, Outcome.isOk, SharedDataStore.add_data,
        Nat.add_comm, Nat.add_assoc, Nat.add_left_comm]

theorem runTasks_result_ids (o : Nat → Outcome) (tn : Nat → String) (ts : Nat → Nat)
    (tids : List Nat) (tokens : Nat) (s : SysState) (res : List TaskResult) :
    (runTasks o tn ts tids (tokens, s, res)).2.2.map TaskResult.task_id
      = res.map TaskResult.task_id ++ tids.filter (fun t => (o t).isOk) := by
  induction tids generalizing tokens s res with
  | nil => simp [runTasks]
  | cons tid rest ih =>
    cases h : o tid <;>
      simp only [runTasks, process_task_threaded, h] <;>
      rw [ih] <;>
      simp [List.filter_cons, h, Outcome.isOk, List.append_assoc]

/-- `m` increments of `shared_counter`, serialized by `data_lock` (the mutex
admits one `shared_counter += 1` critical section at a time, so a concurrent
execution of `m` increments is exactly some serial order of them): returns
the final counter value and the post-increment values handed to the `m`
callers, in execution order. -/
def incrementMany : Nat → Nat → Nat × List Nat
  | c, 0 => (c, [])
  | c, m + 1 =>
      let c1 := c + 1
      let r := incrementMany c1 m
      (r.1, c1 :: r.2)

theorem incrementMany_fst (c m : Nat) : (incrementMany c m).1 = c + m := by
  induction m generalizing c with
  | zero => rfl
  | succ k ih => simp [incrementMany, ih]; omega

theorem incrementMany_snd (c m : Nat) :
    (incrementMany c m).2 = (List.range m).map fun i => c + 1 + i := by
  induction m generalizing c with
  | zero => rfl
  | succ k ih =>
    simp only [incrementMany, ih]
    rw [List.range_succ_eq_map, List.map_cons, List.map_map]
    congr 1
    apply List.map_congr_left
    intro a _
    simp [Function.comp]
    omega

theorem process_single_unfold (compute : Nat → Int) (items : Int) (s : SysState)
    (h1 : 1 ≤ items) (h2 : items ≤ 20) :
    process_single compute items s
      = (s, Except.ok
          { version := "A - Single Threaded",
            items_processed := items.toNat,
            results := (List.range items.toNat).map fun i =>
              ({ task_id := i, result := compute i, processed_by := "single_thread",
                 counter_value := none } : TaskResult),
            concurrency := "none",
            shared_counter := none, store_stats := none }) := by
  have hneg : ¬(items < 1 ∨ 20 < items) := by omega
  simp only [process_single, if_neg hneg]

theorem process_parallel_unfold (o : Nat → Outcome) (tn : Nat → String) (ts : Nat → Nat)
    (items : Int) (s : SysState) (h1 : 1 ≤ items) (h2 : items ≤ 20) :
    process_parallel o tn ts items s
      = ((runTasks o tn ts (List.range items.toNat) (max_concurrent_operations, s, [])).2.1,
         Except.ok
           { version := "B - Multi-threaded",
             items_processed := items.toNat,
             results := (runTasks o tn ts (List.range items.toNat)
               (max_concurrent_operations, s, [])).2.2,
             concurrency := "parallel",
             shared_counter := some (runTasks o tn ts (List.range items.toNat)
               (max_concurrent_operations, s, [])).2.1.shared_counter,
             store_stats := some (runTasks o tn ts (List.range items.toNat)
               (max_concurrent_operations, s, [])).2.1.store.get_stats }) := by
  have hneg : ¬(items < 1 ∨ 20 < items) := by omega
  simp only [process_parallel, if_neg hneg]

theorem process_async_unfold (compute : Nat → Int) (items : Int) (s : SysState)
    (h1 : 1 ≤ items) (h2 : items ≤ 20) :
    process_async compute items s
      = (s, Except.ok
          { version := "Async/Await",
            items_processed := items.toNat,
            results := (List.range items.toNat).map fun i =>
              ({ task_id := i, result := compute i, processed_by := "async_coroutine",
                 counter_value := none } : TaskResult),
            concurrency := "async",
            shared_counter := none, store_stats := none }) := by
  have hneg : ¬(items < 1 ∨ 20 < items) := by omega
  simp only [process_async, if_neg hneg]

theorem bumpsCounter_of_isOk {x : Outcome} (h : x.isOk = true) : x.bumpsCounter = true := by
  cases x <;> simp [Outcome.isOk, Outcome.bumpsCounter] at *

/-- Concrete workload result used to instantiate witnesses. -/
def zeroCompute : Nat → Int := fun _ => 0

/-- Concrete all-success task outcomes used to instantiate witnesses. -/
def okOutcomes : Nat → Outcome := fun _ => Outcome.ok 0

/-- Concrete thread-name assignment used to instantiate witnesses. -/
def someThread : Nat → String := fun _ => "Thread-1"

/-- Concrete timestamp assignment used to instantiate witnesses. -/
def zeroTs : Nat → Nat := fun _ => 0

/-- Concrete store-record assignment used to instantiate witness schedules. -/
def witnessRecs : Nat → StoreItem :=
  fun i => { task_id := i, thread := "Thread-1", timestamp := 0 }

theorem process_parallel_ok_state (o : Nat → Outcome) (tn : Nat → String) (ts : Nat → Nat)
    (items : Int) (s : SysState) (h1 : 1 ≤ items) (h2 : items ≤ 20)
    (ho : ∀ t, (o t).isOk = true) :
    (process_parallel o tn ts items s).1.shared_counter = s.shared_counter + items.toNat
    ∧ (process_parallel o tn ts items s).1.store.data.length
        = s.store.data.length + items.toNat
    ∧ (process_parallel o tn ts items s).1.store.operation_count
        = s.store.operation_count + items.toNat := by
  rw [process_parallel_unfold o tn ts items s h1 h2]
  have hb : ∀ t, (o t).bumpsCounter = true := fun t => bumpsCounter_of_isOk (ho t)
  refine ⟨?_, ?_, ?_⟩
  · rw [runTasks_shared_counter]
    congr 1
    rw [List.countP_eq_length.mpr fun a _ => hb a, List.length_range]
  · rw [runTasks_store_data]
    rw [List.length_append, List.length_map, List.filter_eq_self.mpr fun a _ => ho a,
      List.length_range]
  · rw [runTasks_operation_count]
    congr 1
    rw [List.countP_eq_length.mpr fun a _ => ho a, List.length_range]

/-- Claim C1: for every run of the parallel entry point with `n` items in
which no task's workload raises — modelled as any interleaving of the
per-task atomic counter increments and store appends (`ValidSchedule`) — the
shared counter's final value is its value before the run plus exactly `n`,
the shared store gains exactly `n` new records, and afterwards
`store_stats().total_items = store_stats().operations` (given that invariant
held before the run, as it does from process start); in particular, any run
of `process_parallel` with 10 items followed by one with 3 items from the
initial process state leaves `counter_snapshot() = 13` and
`store_stats().total_items = 13`, stated both over arbitrary interleavings
and for the `process_parallel` function itself. -/
theorem c1_parallel_run_counts :
    (∀ (n : Nat) (s : SysState) (recs : Nat → StoreItem) (es : List Ev),
      ValidSchedule n recs es →
        (runEvents s es).shared_counter = s.shared_counter + n
        ∧ (runEvents s es).store.data.length = s.store.data.length + n
        ∧ (s.store.data.length = s.store.operation_count →
            (runEvents s es).store.get_stats.total_items
              = (runEvents s es).store.get_stats.operations))
    ∧ (∀ (recs1 recs2 : Nat → StoreItem) (es1 es2 : List Ev),
        ValidSchedule 10 recs1 es1 → ValidSchedule 3 recs2 es2 →
          (runEvents (runEvents initState es1) es2).shared_counter = 13
          ∧ (runEvents (runEvents initState es1) es2).store.get_stats.total_items = 13)
    ∧ (∀ (o : Nat → Outcome) (tn : Nat → String) (ts : Nat → Nat),
        (∀ t, (o t).isOk = true) →
          (process_parallel o tn ts 3
            (process_parallel o tn ts 10 initState).1).1.shared_counter = 13
          ∧ (process_parallel o tn ts 3
              (process_parallel o tn ts 10 initState).1).1.store.get_stats.total_items
                = 13) := by
  refine ⟨?_, ?_, ?_⟩
  · intro n s recs es hes
    have hinc := validSchedule_countP_inc hes
    have happ := validSchedule_countP_app hes
    refine ⟨?_, ?_, ?_⟩
    · rw [runEvents_shared_counter, hinc]
    · rw [runEvents_data_length, happ]
    · intro hinv
      simp [SharedDataStore.get_stats, runEvents_data_length, runEvents_operation_count,
        happ, hinv]
  · intro recs1 recs2 es1 es2 h1 h2
    constructor
    · rw [runEvents_shared_counter, validSchedule_countP_inc h2,
        runEvents_shared_counter, validSchedule_countP_inc h1]
      decide
    · simp only [SharedDataStore.get_stats]
      rw [runEvents_data_length, validSchedule_countP_app h2,
        runEvents_data_length, validSchedule_countP_app h1]
      decide
  · intro o tn ts ho
    have h10 := process_parallel_ok_state o tn ts 10 initState (by decide) (by decide) ho
    have h3 := process_parallel_ok_state o tn ts 3
      (process_parallel o tn ts 10 initState).1 (by decide) (by decide) ho
    constructor
    · rw [h3.1, h10.1]
      decide
    · simp only [SharedDataStore.get_stats]
      rw [h3.2.1, h10.2.1]
      decide

/-- Witness for C1 at concrete inputs: the canonical schedules and an
all-success outcome assignment. -/
theorem c1_parallel_run_counts_witness :
    (runEvents initState (canonicalSchedule 4 witnessRecs)).shared_counter
        = initState.shared_counter + 4
    ∧ (runEvents (runEvents initState (canonicalSchedule 10 witnessRecs))
        (canonicalSchedule 3 witnessRecs)).shared_counter = 13
    ∧ (process_parallel okOutcomes someThread zeroTs 3
        (process_parallel okOutcomes someThread zeroTs 10 initState).1).1.shared_counter
          = 13 :=
  ⟨(c1_parallel_run_counts.1 4 initState witnessRecs
      (canonicalSchedule 4 witnessRecs) (List.Perm.refl _)).1,
   (c1_parallel_run_counts.2.1 witnessRecs witnessRecs
      (canonicalSchedule 10 witnessRecs) (canonicalSchedule 3 witnessRecs)
      (List.Perm.refl _) (List.Perm.refl _)).1,
   (c1_parallel_run_counts.2.2 okOutcomes someThread zeroTs (fun _ => rfl)).1⟩

/-- Claim C2: for the `data_lock`-guarded `shared_counter`: after `m` total
increments — serialized by the mutex, so a concurrent execution is a serial
order of `m` atomic `shared_counter += 1` sections — the final value equals
the value before plus exactly `m` (no lost update), the `m` callers receive
`m` pairwise-distinct post-increment values, and under the event model any
interleaving consisting of `m` increment events adds exactly `m`; the
operation is a total function (it cannot fail, only wait for the lock). -/
theorem c2_counter_exact (c m : Nat) (s : SysState) (es : List Ev)
    (hall : ∀ e ∈ es, e.isInc = true) (hlen : es.length = m) :
    (incrementMany c m).1 = c + m
    ∧ (incrementMany c m).2.length = m
    ∧ (incrementMany c m).2.Nodup
    ∧ (runEvents s es).shared_counter = s.shared_counter + m := by
  refine ⟨incrementMany_fst c m, ?_, ?_, ?_⟩
  · rw [incrementMany_snd, List.length_map, List.length_range]
  · rw [incrementMany_snd]
    exact List.Nodup.map (fun a b hab => by omega) (List.nodup_range m)
  · rw [runEvents_shared_counter, List.countP_eq_length.mpr hall, hlen]

/-- Witness for C2: three serialized increments from 0, and the interleaving
`[inc 0, inc 1, inc 2]` of three concurrent increments. -/
theorem c2_counter_exact_witness :
    (incrementMany 0 3).1 = 0 + 3
    ∧ (incrementMany 0 3).2.length = 3
    ∧ (incrementMany 0 3).2.Nodup
    ∧ (runEvents initState [Ev.inc 0, Ev.inc 1, Ev.inc 2]).shared_counter
        = initState.shared_counter + 3 :=
  c2_counter_exact 0 3 initState [Ev.inc 0, Ev.inc 1, Ev.inc 2] (by decide) (by decide)

theorem foldl_add_data_data (st : SharedDataStore) (rs : List StoreItem) :
    (rs.foldl SharedDataStore.add_data st).data = st.data ++ rs := by
  induction rs generalizing st with
  | nil => simp
  | cons r rest ih => simp [List.foldl_cons, ih, SharedDataStore.add_data]

theorem foldl_add_data_operation_count (st : SharedDataStore) (rs : List StoreItem) :
    (rs.foldl SharedDataStore.add_data st).operation_count
      = st.operation_count + rs.length := by
  induction rs generalizing st with
  | nil => simp
  | cons r rest ih =>
    simp [List.foldl_cons, ih, SharedDataStore.add_data]
    omega

/-- Claim C3: the shared store preserves `len(data) = operation_count` at
every observation point outside a critical section: `add_data` appends
exactly one record and increments `operation_count` in the same atomic
update, preserving the invariant; `get_stats` reads both fields in one
critical section and reports equal values under the invariant; a sequence of
appends is append-only (the final list is the old list extended by the
appended records, nothing mutated or deleted), and each appended fresh
record is present exactly once in the final sequence. -/
theorem c3_store_invariant (st : SharedDataStore) (item : StoreItem)
    (rs : List StoreItem) (r : StoreItem) (hinv : st.data.length = st.operation_count)
    (hnd : rs.Nodup) (hfresh : ∀ x ∈ rs, x ∉ st.data) (hr : r ∈ rs) :
    (st.add_data item).data = st.data ++ [item]
    ∧ (st.add_data item).operation_count = st.operation_count + 1
    ∧ (st.add_data item).data.length = (st.add_data item).operation_count
    ∧ st.get_stats.total_items = st.get_stats.operations
    ∧ (rs.foldl SharedDataStore.add_data st).data = st.data ++ rs
    ∧ (rs.foldl SharedDataStore.add_data st).data.length
        = (rs.foldl SharedDataStore.add_data st).operation_count
    ∧ (rs.foldl SharedDataStore.add_data st).data.count r = 1 := by
  refine ⟨rfl, rfl, ?_, ?_, foldl_add_data_data st rs, ?_, ?_⟩
  · simp [SharedDataStore.add_data, hinv]
  · simp [SharedDataStore.get_stats, hinv]
  · rw [foldl_add_data_data, foldl_add_data_operation_count, List.length_append, hinv]
  · rw [foldl_add_data_data, List.count_append]
    rw [List.count_eq_zero.mpr (hfresh r hr), List.count_eq_one_of_mem hnd hr]

/-- Witness for C3: a store already holding one record, one further append
and a two-record append sequence. -/
theorem c3_store_invariant_witness :
    (SharedDataStore.add_data
        { data := [{ task_id := 0, thread := "Thread-1", timestamp := 0 }],
          operation_count := 1 }
        { task_id := 1, thread := "Thread-1", timestamp := 2 }).data
      = [({ task_id := 0, thread := "Thread-1", timestamp := 0 } : StoreItem)]
        ++ [{ task_id := 1, thread := "Thread-1", timestamp := 2 }]
    ∧ (SharedDataStore.add_data
        { data := [{ task_id := 0, thread := "Thread-1", timestamp := 0 }],
          operation_count := 1 }
        { task_id := 1, thread := "Thread-1", timestamp := 2 }).operation_count = 1 + 1
    ∧ (SharedDataStore.add_data
        { data := [{ task_id := 0, thread := "Thread-1", timestamp := 0 }],
          operation_count := 1 }
        { task_id := 1, thread := "Thread-1", timestamp := 2 }).data.length
      = (SharedDataStore.add_data
          { data := [{ task_id := 0, thread := "Thread-1", timestamp := 0 }],
            operation_count := 1 }
          { task_id := 1, thread := "Thread-1", timestamp := 2 }).operation_count
    ∧ (SharedDataStore.get_stats
        { data := [{ task_id := 0, thread := "Thread-1", timestamp := 0 }],
          operation_count := 1 }).total_items
      = (SharedDataStore.get_stats
          { data := [{ task_id := 0, thread := "Thread-1", timestamp := 0 }],
            operation_count := 1 }).operations
    ∧ ([({ task_id := 2, thread := "a", timestamp := 0 } : StoreItem),
        { task_id := 3, thread := "b", timestamp := 0 }].foldl SharedDataStore.add_data
          { data := [{ task_id := 0, thread := "Thread-1", timestamp := 0 }],
            operation_count := 1 }).data
      = [({ task_id := 0, thread := "Thread-1", timestamp := 0 } : StoreItem)]
        ++ [{ task_id := 2, thread := "a", timestamp := 0 },
            { task_id := 3, thread := "b", timestamp := 0 }]
    ∧ ([({ task_id := 2, thread := "a", timestamp := 0 } : StoreItem),
        { task_id := 3, thread := "b", timestamp := 0 }].foldl SharedDataStore.add_data
          { data := [{ task_id := 0, thread := "Thread-1", timestamp := 0 }],
            operation_count := 1 }).data.length
      = ([({ task_id := 2, thread := "a", timestamp := 0 } : StoreItem),
          { task_id := 3, thread := "b", timestamp := 0 }].foldl SharedDataStore.add_data
            { data := [{ task_id := 0, thread := "Thread-1", timestamp := 0 }],
              operation_count := 1 }).operation_count
    ∧ ([({ task_id := 2, thread := "a", timestamp := 0 } : StoreItem),
        { task_id := 3, thread := "b", timestamp := 0 }].foldl SharedDataStore.add_data
          { data := [{ task_id := 0, thread := "Thread-1", timestamp := 0 }],
            operation_count := 1 }).data.count
        { task_id := 2, thread := "a", timestamp := 0 } = 1 :=
  c3_store_invariant
    { data := [{ task_id := 0, thread := "Thread-1", timestamp := 0 }],
      operation_count := 1 }
    { task_id := 1, thread := "Thread-1", timestamp := 2 }
    [{ task_id := 2, thread := "a", timestamp := 0 },
     { task_id := 3, thread := "b", timestamp := 0 }]
    { task_id := 2, thread := "a", timestamp := 0 }
    rfl (by decide) (by decide) (by decide)

/-- Claim C4: at no instant of a parallel run are more than
`max_concurrent_operations` (= 5, the size of `operation_semaphore`) workers
simultaneously inside the semaphore-gated phase: in every state the pool
transition system can reach — a worker enters only by taking an available
token and returns it on normal or failing exit — the number of active
workers is at most the semaphore size. -/
theorem c4_semaphore_bound (n : Nat) (st : PoolState)
    (h : PoolReachable max_concurrent_operations n st) :
    countActive st.phases ≤ max_concurrent_operations := by
  have hinv := pool_invariant max_concurrent_operations n st h
  omega

/-- Witness for C4: the initial pool state of an 8-task run is reachable. -/
theorem c4_semaphore_bound_witness :
    countActive (initPool max_concurrent_operations 8).phases ≤ max_concurrent_operations :=
  c4_semaphore_bound 8 (initPool max_concurrent_operations 8) Relation.ReflTransGen.refl

/-- Claim C5: `process_task_threaded` releases the admission token on every
exit path: whether the workload computation, the counter increment or the
store append raises, or every step succeeds, the semaphore's token count
after the call equals the count before it (`0 < tokens` states a token was
available for the acquisition to complete — otherwise the `with` statement
blocks rather than proceeds). -/
theorem c5_token_released (tid : Nat) (outcome : Outcome) (tname : String) (ts : Nat)
    (tokens : Nat) (s : SysState) (ht : 0 < tokens) :
    (process_task_threaded tid outcome tname ts tokens s).1 = tokens := by
  cases outcome <;> simp [process_task_threaded] <;> omega

/-- Witness for C5: a task whose workload raises, run with all five tokens
available, leaves the token count at five. -/
theorem c5_token_released_witness :
    (process_task_threaded 0 (Outcome.raiseCompute "boom") "Thread-1" 0
      max_concurrent_operations initState).1 = max_concurrent_operations :=
  c5_token_released 0 (Outcome.raiseCompute "boom") "Thread-1" 0
    max_concurrent_operations initState (by decide)

/-- Whether a run returned a report (rather than a validation error). -/
def isOkRun (r : SysState × Except ApiError RunReport) : Bool :=
  match r.2 with
  | .ok _ => true
  | .error _ => false

/-- The report's `shared_counter` field, when the run returned a report. -/
def reportCounterField (r : SysState × Except ApiError RunReport) : Option (Option Nat) :=
  match r.2 with
  | .ok rep => some rep.shared_counter
  | .error _ => none

/-- The report's `store_stats` field, when the run returned a report. -/
def reportStatsField (r : SysState × Except ApiError RunReport) : Option (Option Stats) :=
  match r.2 with
  | .ok rep => some rep.store_stats
  | .error _ => none

/-- Task-success predicate induced by an outcome assignment. -/
def isOkPred (o : Nat → Outcome) : Nat → Bool := fun t => (o t).isOk

/-- Outcomes in which task 0's workload raises and every other task
succeeds. -/
def task0Fails : Nat → Outcome :=
  fun t => if t = 0 then Outcome.raiseCompute "boom" else Outcome.ok 7

/-- Counterexample to claim C6 as stated: in a 2-task parallel run where
task 0's workload raises, the returned report's results list has a single
entry, for task 1 only — the failed task has no result slot at all, so the
failure is not surfaced in its own result slot. -/
theorem c6_counterexample :
    (resultsOf (process_parallel task0Fails someThread zeroTs 2 initState)).map
        TaskResult.task_id = [1]
    ∧ (resultsOf (process_parallel task0Fails someThread zeroTs 2 initState)).length ≠ 2 := by
  decide

/-- Claim C6 (amended): if any tasks fail during a parallel run, the sibling
tasks are not aborted — every successful task still completes, appearing in
the results and in the store's operation count — and the overall call still
returns a report (best-effort: it never fails, even when all tasks fail);
however, a failed task's failure is not surfaced in a result slot of the
report: its entry is simply absent, the results containing exactly the
successful tasks. -/
theorem c6_amended (o : Nat → Outcome) (tn : Nat → String) (tsf : Nat → Nat)
    (items : Int) (s : SysState) (h1 : 1 ≤ items) (h2 : items ≤ 20) :
    isOkRun (process_parallel o tn tsf items s) = true
    ∧ (resultsOf (process_parallel o tn tsf items s)).map TaskResult.task_id
        = (List.range items.toNat).filter (isOkPred o)
    ∧ (process_parallel o tn tsf items s).1.store.operation_count
        = s.store.operation_count + (List.range items.toNat).countP (isOkPred o) := by
  rw [process_parallel_unfold o tn tsf items s h1 h2]
  refine ⟨rfl, ?_, ?_⟩
  · simp only [resultsOf]
    rw [runTasks_result_ids]
    simp only [List.map_nil, List.nil_append]
    rfl
  · rw [runTasks_operation_count]
    rfl

/-- Witness for C6 (amended): a 3-task run in which task 0 fails returns a
report whose results are exactly tasks 1 and 2. -/
theorem c6_amended_witness :
    isOkRun (process_parallel task0Fails someThread zeroTs 3 initState) = true
    ∧ (resultsOf (process_parallel task0Fails someThread zeroTs 3 initState)).map
        TaskResult.task_id = (List.range (3 : Int).toNat).filter (isOkPred task0Fails)
    ∧ (process_parallel task0Fails someThread zeroTs 3 initState).1.store.operation_count
        = initState.store.operation_count
          + (List.range (3 : Int).toNat).countP (isOkPred task0Fails) :=
  c6_amended task0Fails someThread zeroTs 3 initState (by decide) (by decide)

/-- Counterexample to claim C7 as stated: a successful sequential run with
`items = 1` submits and completes one task but performs zero counter
increments and zero store appends, so the four totals are not all equal to
the item count. -/
theorem c7_counterexample :
    (resultsOf (process_single zeroCompute 1 initState)).length = 1
    ∧ (process_single zeroCompute 1 initState).1.shared_counter = 0
    ∧ (process_single zeroCompute 1 initState).1.store.operation_count = 0
    ∧ (0 : Nat) ≠ 1 := by
  decide

/-- Claim C7 (amended): for any successful run, submitted tasks = completed
tasks = `items` for every strategy, but only the parallel strategy's store
appends and counter increments also equal `items`; the sequential and async
strategies perform no store appends and no counter increments at all (their
shared state is returned unchanged). -/
theorem c7_amended (compute : Nat → Int) (o : Nat → Outcome) (tn : Nat → String)
    (tsf : Nat → Nat) (items : Int) (s : SysState)
    (h1 : 1 ≤ items) (h2 : items ≤ 20) (ho : ∀ t, (o t).isOk = true) :
    (resultsOf (process_parallel o tn tsf items s)).length = items.toNat
    ∧ (process_parallel o tn tsf items s).1.shared_counter
        = s.shared_counter + items.toNat
    ∧ (process_parallel o tn tsf items s).1.store.data.length
        = s.store.data.length + items.toNat
    ∧ (process_parallel o tn tsf items s).1.store.operation_count
        = s.store.operation_count + items.toNat
    ∧ (resultsOf (process_single compute items s)).length = items.toNat
    ∧ (process_single compute items s).1 = s
    ∧ (resultsOf (process_async compute items s)).length = items.toNat
    ∧ (process_async compute items s).1 = s := by
  have hstate := process_parallel_ok_state o tn tsf items s h1 h2 ho
  refine ⟨?_, hstate.1, hstate.2.1, hstate.2.2, ?_, ?_, ?_, ?_⟩
  · rw [process_parallel_unfold o tn tsf items s h1 h2]
    simp only [resultsOf]
    have hids := runTasks_result_ids o tn tsf (List.range items.toNat)
      max_concurrent_operations s []
    rw [List.filter_eq_self.mpr fun a _ => ho a] at hids
    have hlen := congrArg List.length hids
    simpa using hlen
  · rw [process_single_unfold compute items s h1 h2]
    simp [resultsOf]
  · rw [process_single_unfold compute items s h1 h2]
  · rw [process_async_unfold compute items s h1 h2]
    simp [resultsOf]
  · rw [process_async_unfold compute items s h1 h2]

/-- Witness for C7 (amended) at `items = 2` with all-success outcomes. -/
theorem c7_amended_witness :
    (resultsOf (process_parallel okOutcomes someThread zeroTs 2 initState)).length
        = (2 : Int).toNat
    ∧ (process_parallel okOutcomes someThread zeroTs 2 initState).1.shared_counter
        = initState.shared_counter + (2 : Int).toNat
    ∧ (process_parallel okOutcomes someThread zeroTs 2 initState).1.store.data.length
        = initState.store.data.length + (2 : Int).toNat
    ∧ (process_parallel okOutcomes someThread zeroTs 2 initState).1.store.operation_count
        = initState.store.operation_count + (2 : Int).toNat
    ∧ (resultsOf (process_single zeroCompute 2 initState)).length = (2 : Int).toNat
    ∧ (process_single zeroCompute 2 initState).1 = initState
    ∧ (resultsOf (process_async zeroCompute 2 initState)).length = (2 : Int).toNat
    ∧ (process_async zeroCompute 2 initState).1 = initState :=
  c7_amended zeroCompute okOutcomes someThread zeroTs 2 initState
    (by decide) (by decide) (fun _ => rfl)

/-- Claim C8: for every valid `items`, the sequential entry point returns a
report with exactly `items` per-task results in submission order — the
result at position `i` has `task_id = i`, i.e. the task ids read
`0, 1, ..., items-1` — and it performs no access to the shared counter or
the shared store: the shared state is returned unchanged and the report
carries no counter or store snapshot field. -/
theorem c8_sequential_order (compute : Nat → Int) (items : Int) (s : SysState)
    (h1 : 1 ≤ items) (h2 : items ≤ 20) :
    (process_single compute items s).1 = s
    ∧ isOkRun (process_single compute items s) = true
    ∧ (resultsOf (process_single compute items s)).map TaskResult.task_id
        = List.range items.toNat
    ∧ (resultsOf (process_single compute items s)).length = items.toNat
    ∧ reportCounterField (process_single compute items s) = some none
    ∧ reportStatsField (process_single compute items s) = some none := by
  rw [process_single_unfold compute items s h1 h2]
  refine ⟨rfl, rfl, ?_, ?_, rfl, rfl⟩
  · simp only [resultsOf, List.map_map]
    have hcomp : (TaskResult.task_id ∘ fun i =>
        ({ task_id := i, result := compute i, processed_by := "single_thread",
           counter_value := none } : TaskResult)) = id := rfl
    rw [hcomp, List.map_id]
  · simp [resultsOf]

/-- Witness for C8 at `items = 5`: the five results carry task ids
`0, 1, 2, 3, 4` in order. -/
theorem c8_sequential_order_witness :
    (process_single zeroCompute 5 initState).1 = initState
    ∧ isOkRun (process_single zeroCompute 5 initState) = true
    ∧ (resultsOf (process_single zeroCompute 5 initState)).map TaskResult.task_id
        = List.range (5 : Int).toNat
    ∧ (resultsOf (process_single zeroCompute 5 initState)).length = (5 : Int).toNat
    ∧ reportCounterField (process_single zeroCompute 5 initState) = some none
    ∧ reportStatsField (process_single zeroCompute 5 initState) = some none :=
  c8_sequential_order zeroCompute 5 initState (by decide) (by decide)

/-- Claim C9: an `items` value outside the validated range 1–20 is rejected
by every entry point before any work starts: the call returns a validation
error, the shared state is returned exactly as it was (no workload ran, no
counter increment, no store append), and no partial report is produced. -/
theorem c9_validation_rejects (compute : Nat → Int) (o : Nat → Outcome)
    (tn : Nat → String) (tsf : Nat → Nat) (items : Int) (s : SysState)
    (hbad : items < 1 ∨ 20 < items) :
    process_single compute items s
        = (s, Except.error (ApiError.validation "items must be between 1 and 20"))
    ∧ process_parallel o tn tsf items s
        = (s, Except.error (ApiError.validation "items must be between 1 and 20"))
    ∧ process_async compute items s
        = (s, Except.error (ApiError.validation "items must be between 1 and 20")) := by
  refine ⟨?_, ?_, ?_⟩ <;>
    simp [process_single, process_parallel, process_async, if_pos hbad]

/-- Witness for C9 at `items = 25`. -/
theorem c9_validation_rejects_witness :
    process_single zeroCompute 25 initState
        = (initState, Except.error (ApiError.validation "items must be between 1 and 20"))
    ∧ process_parallel okOutcomes someThread zeroTs 25 initState
        = (initState, Except.error (ApiError.validation "items must be between 1 and 20"))
    ∧ process_async zeroCompute 25 initState
        = (initState, Except.error (ApiError.validation "items must be between 1 and 20")) :=
  c9_validation_rejects zeroCompute okOutcomes someThread zeroTs 25 initState (by decide)

/-- Claim C10: for every valid `items`, the async entry point leaves all
shared state unchanged — it performs no counter increment and no store
append, so `counter_snapshot()` and `store_stats()` are identical before and
after the call — and its report carries no counter or store snapshot
field. -/
theorem c10_async_frame (compute : Nat → Int) (items : Int) (s : SysState)
    (h1 : 1 ≤ items) (h2 : items ≤ 20) :
    (process_async compute items s).1 = s
    ∧ (process_async compute items s).1.shared_counter = s.shared_counter
    ∧ (process_async compute items s).1.store.get_stats = s.store.get_stats
    ∧ isOkRun (process_async compute items s) = true
    ∧ reportCounterField (process_async compute items s) = some none
    ∧ reportStatsField (process_async compute items s) = some none := by
  rw [process_async_unfold compute items s h1 h2]
  exact ⟨rfl, rfl, rfl, rfl, rfl, rfl⟩

/-- Witness for C10 at `items = 5`. -/
theorem c10_async_frame_witness :
    (process_async zeroCompute 5 initState).1 = initState
    ∧ (process_async zeroCompute 5 initState).1.shared_counter = initState.shared_counter
    ∧ (process_async zeroCompute 5 initState).1.store.get_stats
        = initState.store.get_stats
    ∧ isOkRun (process_async zeroCompute 5 initState) = true
    ∧ reportCounterField (process_async zeroCompute 5 initState) = some none
    ∧ reportStatsField (process_async zeroCompute 5 initState) = some none :=
  c10_async_frame zeroCompute 5 initState (by decide) (by decide)
